import Mathlib

/-!
Shallow embedding of the gocommerce price calculator
(`src/calculator/calculator.go`).

Modelling conventions:

* Go `uint64` values are modelled as `ℕ` together with explicit wrap-around
  operations `add64` / `sub64` / `mul64` (all reductions `% 2^64`), applied
  exactly where Go performs unsigned arithmetic.
* Go `float64` intermediates are modelled by exact rationals.  Every float
  that reaches the rounding primitive `rint` in the source is a quotient of
  two integers (`price / (100+percentage) * 100`, `price * percentage / 100`,
  `amount * 100`), so those arguments are built with `Rat.divInt` from the
  exact integer numerator and denominator.
* Go `nil`-able pointers/maps/interfaces (`*Settings`, the claims map, the
  `Coupon` interface) are modelled as `Option`; Go nil-or-empty slice tests
  (`s != nil && len(s) > 0`) collapse to list non-emptiness.
* Go maps used only for lookup are modelled as association lists.
-/

namespace Calculator

/-- `2^64`, the modulus of Go's `uint64` arithmetic. -/
def u64Mod : ℕ := 18446744073709551616

/-- Go `uint64` addition: wraps modulo `2^64`. -/
def add64 (a b : ℕ) : ℕ := (a + b) % u64Mod

/-- Go `uint64` multiplication: wraps modulo `2^64`. -/
def mul64 (a b : ℕ) : ℕ := (a * b) % u64Mod

/-- Go `uint64` subtraction `a - b`: wraps modulo `2^64`.  For
`a, b < 2^64` this agrees with Go's `(a + 2^64 - b) % 2^64`. -/
def sub64 (a b : ℕ) : ℕ := (a + (u64Mod - b % u64Mod)) % u64Mod

/-- Go's conversion of an integer-valued float to `uint64`.  For values in
`[0, 2^64)` this is the identity.  For negative values the Go specification
leaves the conversion implementation-defined; we model the two's-complement
wrap produced by the gc compiler on amd64 (`uint64(int64(v))`). -/
def toU64 (z : ℤ) : ℕ := (z % (u64Mod : ℤ)).toNat

/-- `rint` (calculator.go lines 242-255), the single rounding primitive:

    v, frac := math.Modf(x)
    if x > 0.0 { if frac > 0.5 || (frac == 0.5 && uint64(v)%2 != 0) { v += 1.0 } }
    else       { if frac < -0.5 || (frac == -0.5 && uint64(v)%2 != 0) { v -= 1.0 } }
    return uint64(v)

The float argument is modelled by the exact rational `x = x.num / x.den`
(`x.den > 0`).  `math.Modf` truncates toward zero, so the integer part `v`
is `Int.tdiv x.num x.den` and the fractional part is `r / x.den` with
`r = x.num - v * x.den`.  The real comparisons `frac > 0.5`, `frac == 0.5`,
`frac < -0.5`, `frac == -0.5` become `2r > den`, `2r = den`, `2r < -den`,
`2r = -den` (the denominator is positive). -/
def rint (x : ℚ) : ℕ :=
  let v : ℤ := Int.tdiv x.num x.den
  let r : ℤ := x.num - v * x.den
  let d : ℤ := x.den
  let v : ℤ :=
    if 0 < x then
      if d < 2 * r ∨ (2 * r = d ∧ toU64 v % 2 ≠ 0) then v + 1 else v
    else
      if 2 * r < -d ∨ (2 * r = -d ∧ toU64 v % 2 ≠ 0) then v - 1 else v
  toU64 v

/-- Round-half-to-even on rationals, written from the specification's words:
round to the nearest integer, and when the fractional part is exactly `1/2`
round to the nearest even integer (sign-symmetric).  `⌊x⌋` is
`Int.fdiv x.num x.den` since `x.den > 0`; the fractional part `x - ⌊x⌋` is
`r / x.den` with `r = x.num - ⌊x⌋ * x.den`, compared against `1/2` by
cross-multiplication.  Used only to compare the code's `rint` against the
specification. -/
def roundHalfToEven (x : ℚ) : ℤ :=
  let f : ℤ := Int.fdiv x.num x.den
  let r : ℤ := x.num - f * x.den
  if 2 * r < (x.den : ℤ) then f
  else if (x.den : ℤ) < 2 * r then f + 1
  else if f % 2 = 0 then f else f + 1

/-- Tax rule (calculator.go lines 38-42). -/
structure Tax where
  Percentage : ℕ
  ProductTypes : List String
  Countries : List String
deriving Repr, DecidableEq

/-- A `(price, percentage)` pair produced by tax resolution
(calculator.go lines 44-47). -/
structure TaxAmount where
  price : ℕ
  percentage : ℕ
deriving Repr, DecidableEq

/-- Fixed member discount for one currency (calculator.go lines 50-53).
The Go `Amount` field is a decimal string parsed leniently by
`strconv.ParseFloat` (`amount, _ := strconv.ParseFloat(...)`), a parse
failure yielding `0`; it is modelled by the rational value that parse
produces. -/
structure FixedMemberDiscount where
  Amount : ℚ
  Currency : String
deriving Repr, DecidableEq

/-- Member discount rule (calculator.go lines 57-63).  The Go
`map[string]string` of required claims is modelled as an association
list. -/
structure MemberDiscount where
  Claims : List (String × String)
  Percentage : ℕ
  FixedAmount : List FixedMemberDiscount
  ProductTypes : List String
  Products : List String
deriving Repr, DecidableEq

/-- `MemberDiscount.ValidForType` (calculator.go lines 66-76): an empty (or
nil) product-type allow-list accepts every type, otherwise the item's type
must be listed. -/
def MemberDiscount.ValidForType (d : MemberDiscount) (productType : String) : Bool :=
  if d.ProductTypes.isEmpty then true
  else d.ProductTypes.contains productType

/-- `MemberDiscount.ValidForProduct` (calculator.go lines 79-89): an empty
(or nil) product-SKU allow-list accepts every SKU, otherwise the item's SKU
must be listed. -/
def MemberDiscount.ValidForProduct (d : MemberDiscount) (productSku : String) : Bool :=
  if d.Products.isEmpty then true
  else d.Products.contains productSku

/-- `MemberDiscount.FixedDiscount` (calculator.go lines 111-122): scan the
fixed amounts for the first entry of the requested currency and return
`rint(amount * 100)`; `0` when no entry matches.  `amount * 100` is the
exact rational `(amount.num * 100) / amount.den`. -/
def MemberDiscount.FixedDiscount (d : MemberDiscount) (currency : String) : ℕ :=
  match d.FixedAmount.find? fun f => f.Currency == currency with
  | some f => rint (Rat.divInt (f.Amount.num * 100) (f.Amount.den : ℤ))
  | none => 0

/-- `Tax.AppliesTo` (calculator.go lines 125-149): the rule applies iff the
product type passes the (possibly empty) product-type constraint and the
country passes the (possibly empty) country constraint. -/
def Tax.AppliesTo (t : Tax) (country productType : String) : Bool :=
  (t.ProductTypes.isEmpty || t.ProductTypes.contains productType)
    && (t.Countries.isEmpty || t.Countries.contains country)

/-- Site-wide settings (calculator.go lines 31-35).  The nillable
`*Settings` pointer is `Option Settings` at use sites; a nil
`MemberDiscounts` slice is the empty list. -/
structure Settings where
  PricesIncludeTaxes : Bool
  Taxes : List Tax
  MemberDiscounts : List MemberDiscount
deriving Repr, DecidableEq

/-- Line item (the `Item` interface, calculator.go lines 92-99), with its
nested taxable sub-items. -/
inductive Item : Type where
  | mk (productSku : String) (priceInLowestUnit : ℕ) (productType : String)
      (fixedVAT : ℕ) (taxableItems : List Item) (quantity : ℕ)

/-- `Item.ProductSku()`. -/
def Item.ProductSku : Item → String
  | .mk s _ _ _ _ _ => s

/-- `Item.PriceInLowestUnit()`. -/
def Item.PriceInLowestUnit : Item → ℕ
  | .mk _ p _ _ _ _ => p

/-- `Item.ProductType()`. -/
def Item.ProductType : Item → String
  | .mk _ _ t _ _ _ => t

/-- `Item.FixedVAT()`. -/
def Item.FixedVAT : Item → ℕ
  | .mk _ _ _ v _ _ => v

/-- `Item.TaxableItems()`. -/
def Item.TaxableItems : Item → List Item
  | .mk _ _ _ _ ti _ => ti

/-- `Item.GetQuantity()`. -/
def Item.GetQuantity : Item → ℕ
  | .mk _ _ _ _ _ q => q

/-- The `Coupon` interface (calculator.go lines 102-108), as a record of its
method set. -/
structure Coupon where
  ValidForType : String → Bool
  ValidForPrice : String → ℕ → Bool
  ValidForProduct : String → Bool
  PercentageDiscount : ℕ
  FixedDiscount : String → ℕ

/-- The caller's JWT claims (`map[string]interface{}`), modelled as an
association list of claim name to claim value; the whole map is `Option`al
(`none` = Go `nil`). -/
abbrev JWTClaims := List (String × String)

/-- Modelled from the spec: `claims.HasClaims` lives in the
`github.com/netlify/gocommerce/claims` package, which is not part of the
sources; per the spec a member discount's required-claims mapping is
satisfied iff the caller's claims satisfy **all** entries of the mapping
(name present with the required value). -/
def HasClaims (jwtClaims : JWTClaims) (required : List (String × String)) : Bool :=
  required.all fun kv =>
    match jwtClaims.find? fun c => c.1 == kv.1 with
    | some c => c.2 == kv.2
    | none => false

/-- Output record for one line item (calculator.go lines 21-28). -/
structure ItemPrice where
  Quantity : ℕ
  Subtotal : ℕ
  Discount : ℕ
  Taxes : ℕ
  Total : ℕ
deriving Repr, DecidableEq

/-- Output record for the whole order (calculator.go lines 11-18). -/
structure Price where
  Items : List ItemPrice
  Subtotal : ℕ
  Discount : ℕ
  Taxes : ℕ
  Total : ℕ
deriving Repr, DecidableEq

/-- `calculateDiscount` (calculator.go lines 224-238):

    if includeTaxes { amountToDiscount += taxes }
    if percentage > 0 { discount = rint(float64(amountToDiscount) * float64(percentage) / 100) }
    discount += fixed
    if discount > amountToDiscount { return amountToDiscount }
    return discount
-/
def calculateDiscount (amountToDiscount taxes percentage fixed : ℕ)
    (includeTaxes : Bool) : ℕ :=
  let amountToDiscount := if includeTaxes then add64 amountToDiscount taxes
    else amountToDiscount
  let discount : ℕ :=
    if percentage > 0 then
      rint (Rat.divInt ((amountToDiscount : ℤ) * (percentage : ℤ)) 100)
    else 0
  let discount := add64 discount fixed
  if discount > amountToDiscount then amountToDiscount else discount

/-- Tax resolution for one item (calculator.go lines 160-181): a nonzero
fixed VAT taxes the whole subtotal at the overridden percentage; otherwise,
with settings present, a non-empty sub-item list yields one tax amount per
sub-item at its first matching rule's percentage (`0` when none matches);
otherwise the first rule matching the item's own type yields a single tax
amount, and no match yields none. -/
def itemTaxAmounts (settings : Option Settings) (country : String) (item : Item) :
    List TaxAmount :=
  if item.FixedVAT ≠ 0 then
    [{ price := item.PriceInLowestUnit, percentage := item.FixedVAT }]
  else
    match settings with
    | none => []
    | some s =>
      if item.TaxableItems.length > 0 then
        item.TaxableItems.map fun ti =>
          { price := ti.PriceInLowestUnit
            percentage :=
              match s.Taxes.find? fun t => t.AppliesTo country ti.ProductType with
              | some t => t.Percentage
              | none => 0 }
      else
        match s.Taxes.find? fun t => t.AppliesTo country item.ProductType with
        | some t => [{ price := item.PriceInLowestUnit, percentage := t.Percentage }]
        | none => []

/-- The subtotal/taxes pass over the resolved tax amounts (calculator.go
lines 183-194).  When the list is non-empty and prices include taxes, the
subtotal is reset to `0` and rebuilt from the backed-out per-tax prices
`rint(price / (100+percentage) * 100)`; each tax amount then contributes
`rint(price * percentage / 100)` to the taxes, using the backed-out price
when inclusive.  Returns `(Subtotal, Taxes)`. -/
def applyTaxes (includeTaxes : Bool) (subtotal : ℕ) (taxAmounts : List TaxAmount) :
    ℕ × ℕ :=
  if taxAmounts.length ≠ 0 then
    taxAmounts.foldl
      (fun st ta =>
        let price : ℕ :=
          if includeTaxes then
            rint (Rat.divInt ((ta.price : ℤ) * 100) (100 + (ta.percentage : ℤ)))
          else ta.price
        let sub := if includeTaxes then add64 st.1 price else st.1
        (sub, add64 st.2 (rint (Rat.divInt ((price : ℤ) * (ta.percentage : ℤ)) 100))))
      (if includeTaxes then 0 else subtotal, 0)
  else (subtotal, 0)

/-- The coupon contribution to an item's discount (calculator.go lines
195-197): applies iff a coupon is present and valid for the item's type and
SKU. -/
def couponDiscountOf (coupon : Option Coupon) (currency : String) (item : Item)
    (subtotal taxes : ℕ) (includeTaxes : Bool) : ℕ :=
  match coupon with
  | some c =>
    if c.ValidForType item.ProductType && c.ValidForProduct item.ProductSku then
      calculateDiscount subtotal taxes c.PercentageDiscount (c.FixedDiscount currency)
        includeTaxes
    else 0
  | none => 0

/-- The member-discount gate (calculator.go line 200):
`jwtClaims != nil && claims.HasClaims(jwtClaims, discount.Claims) &&
discount.ValidForType(item.ProductType())`. -/
def memberEligible (jwtClaims : Option JWTClaims) (item : Item)
    (d : MemberDiscount) : Bool :=
  (match jwtClaims with
    | some c => HasClaims c d.Claims
    | none => false)
    && d.ValidForType item.ProductType

/-- `includeTaxes := settings != nil && settings.PricesIncludeTaxes`
(calculator.go line 155). -/
def includeTaxesOf : Option Settings → Bool
  | some s => s.PricesIncludeTaxes
  | none => false

/-- The per-item body of `CalculatePrice`'s loop (calculator.go lines
157-209), producing one `ItemPrice`. -/
def calcItemPrice (settings : Option Settings) (jwtClaims : Option JWTClaims)
    (country currency : String) (coupon : Option Coupon) (item : Item) : ItemPrice :=
  let includeTaxes := includeTaxesOf settings
  let st := applyTaxes includeTaxes item.PriceInLowestUnit
    (itemTaxAmounts settings country item)
  let discount := couponDiscountOf coupon currency item st.1 st.2 includeTaxes
  let discount :=
    match settings with
    | some s =>
      s.MemberDiscounts.foldl
        (fun dd d =>
          if memberEligible jwtClaims item d then
            add64 dd (calculateDiscount st.1 st.2 d.Percentage
              (d.FixedDiscount currency) includeTaxes)
          else dd)
        discount
    | none => discount
  -- Line 206: `itemPrice.Total = itemPrice.Subtotal - itemPrice.Discount + itemPrice.Taxes`
  -- in uint64 arithmetic.
  let total := add64 (sub64 st.1 discount) st.2
  -- Lines 207-209: `if itemPrice.Total < 0 { itemPrice.Total = 0 }` — on a uint64
  -- the comparison is always false, so the branch is dead; modelled verbatim.
  let total := if total < 0 then 0 else total
  { Quantity := item.GetQuantity, Subtotal := st.1, Discount := discount,
    Taxes := st.2, Total := total }

/-- One iteration of the order loop (calculator.go lines 211-216): append
the item price and accumulate each aggregate, weighted by quantity, in
uint64 arithmetic. -/
def foldItem (settings : Option Settings) (jwtClaims : Option JWTClaims)
    (country currency : String) (coupon : Option Coupon) (p : Price) (item : Item) :
    Price :=
  let ip := calcItemPrice settings jwtClaims country currency coupon item
  { Items := p.Items ++ [ip]
    Subtotal := add64 p.Subtotal (mul64 ip.Subtotal ip.Quantity)
    Discount := add64 p.Discount (mul64 ip.Discount ip.Quantity)
    Taxes := add64 p.Taxes (mul64 ip.Taxes ip.Quantity)
    Total := add64 p.Total (mul64 ip.Total ip.Quantity) }

/-- `CalculatePrice` (calculator.go lines 153-222): run the item loop from
the zero `Price`, then overwrite the accumulated total with
`price.Subtotal - price.Discount + price.Taxes` (line 219), in uint64
arithmetic. -/
def CalculatePrice (settings : Option Settings) (jwtClaims : Option JWTClaims)
    (country currency : String) (coupon : Option Coupon) (items : List Item) : Price :=
  let p := items.foldl (foldItem settings jwtClaims country currency coupon)
    { Items := [], Subtotal := 0, Discount := 0, Taxes := 0, Total := 0 }
  { p with Total := add64 (sub64 p.Subtotal p.Discount) p.Taxes }

/-- C1: for every input, the `Price` returned by `CalculatePrice` satisfies
`Total == Subtotal - Discount + Taxes` (in the program's uint64 arithmetic),
because `Total` is recomputed from the three aggregate components after the
item loop; for the empty item list every order field is `0`. -/
theorem calculatePrice_total_identity (settings : Option Settings)
    (jwtClaims : Option JWTClaims) (country currency : String)
    (coupon : Option Coupon) (items : List Item) :
    (CalculatePrice settings jwtClaims country currency coupon items).Total
      = add64
          (sub64 (CalculatePrice settings jwtClaims country currency coupon items).Subtotal
            (CalculatePrice settings jwtClaims country currency coupon items).Discount)
          (CalculatePrice settings jwtClaims country currency coupon items).Taxes
    ∧ CalculatePrice settings jwtClaims country currency coupon []
        = { Items := [], Subtotal := 0, Discount := 0, Taxes := 0, Total := 0 } := by
  constructor
  · simp [CalculatePrice]
  · simp [CalculatePrice, add64, sub64, u64Mod]

set_option maxRecDepth 10000 in
/-- C2 (code bug): at a concrete input — two stacked 100% member discounts
on an item of subtotal 100 with no taxes — the item's `Discount` (200)
exceeds `Subtotal + Taxes` (100), and the uint64 computation
`Subtotal - Discount + Taxes` underflows to `2^64 - 100`; the guard
`if itemPrice.Total < 0 { itemPrice.Total = 0 }` (calculator.go lines
207-209) compares an unsigned value with `0` and never fires, so the item
total is the huge wrapped value instead of the claimed `0`. -/
theorem itemTotal_underflow_at_failing_input :
    (calcItemPrice
        (some { PricesIncludeTaxes := false, Taxes := [],
                MemberDiscounts :=
                  [{ Claims := [], Percentage := 100, FixedAmount := [],
                     ProductTypes := [], Products := [] },
                   { Claims := [], Percentage := 100, FixedAmount := [],
                     ProductTypes := [], Products := [] }] })
        (some []) "US" "USD" none (.mk "sku" 100 "book" 0 [] 1)).Discount = 200
    ∧ (calcItemPrice
        (some { PricesIncludeTaxes := false, Taxes := [],
                MemberDiscounts :=
                  [{ Claims := [], Percentage := 100, FixedAmount := [],
                     ProductTypes := [], Products := [] },
                   { Claims := [], Percentage := 100, FixedAmount := [],
                     ProductTypes := [], Products := [] }] })
        (some []) "US" "USD" none (.mk "sku" 100 "book" 0 [] 1)).Total
      = 18446744073709551516 := by
  constructor
  · decide
  · decide

/-- C4: `calculateDiscount` never returns more than its discountable base —
the base plus the item's taxes (in uint64 arithmetic) when tax-inclusive
pricing is active, the base alone otherwise; concretely, base 100 with
percentage 150 yields 100, and a fixed amount 250 against base 100 yields
100. -/
theorem calculateDiscount_le_base (b t p f : ℕ) (inc : Bool) :
    calculateDiscount b t p f inc ≤ (if inc then add64 b t else b)
    ∧ calculateDiscount 100 0 150 0 false = 100
    ∧ calculateDiscount 100 0 0 250 false = 100 := by
  refine ⟨?_, by decide, by decide⟩
  unfold calculateDiscount
  dsimp only
  split_ifs <;> omega

set_option maxRecDepth 10000 in
/-- C5: a single item of unit price 1000 and quantity 1 under one
applicable 20% tax rule, no fixed VAT, no coupon and no member discounts:
tax-exclusive settings yield Subtotal 1000 / Taxes 200 / Total 1200;
tax-inclusive settings yield Subtotal 833 / Taxes 167 / Total 1000 — the
total is unchanged by the toggle, only its decomposition changes. -/
theorem taxScenario_inclusive_exclusive :
    CalculatePrice
        (some { PricesIncludeTaxes := false,
                Taxes := [{ Percentage := 20, ProductTypes := [], Countries := [] }],
                MemberDiscounts := [] })
        none "US" "USD" none [.mk "sku" 1000 "book" 0 [] 1]
      = { Items := [{ Quantity := 1, Subtotal := 1000, Discount := 0,
                      Taxes := 200, Total := 1200 }],
          Subtotal := 1000, Discount := 0, Taxes := 200, Total := 1200 }
    ∧ CalculatePrice
        (some { PricesIncludeTaxes := true,
                Taxes := [{ Percentage := 20, ProductTypes := [], Countries := [] }],
                MemberDiscounts := [] })
        none "US" "USD" none [.mk "sku" 1000 "book" 0 [] 1]
      = { Items := [{ Quantity := 1, Subtotal := 833, Discount := 0,
                      Taxes := 167, Total := 1000 }],
          Subtotal := 833, Discount := 0, Taxes := 167, Total := 1000 } := by
  constructor
  · decide
  · decide

/-- C7: for every item whose fixed VAT override is nonzero, tax resolution
produces exactly one taxable amount — the item's whole subtotal at the
override percentage — for every `settings` value (so the site tax rules and
the item's taxable sub-items are ignored entirely). -/
theorem fixedVAT_overrides_taxRules (settings : Option Settings) (country : String)
    (item : Item) (h : item.FixedVAT ≠ 0) :
    itemTaxAmounts settings country item
      = [{ price := item.PriceInLowestUnit, percentage := item.FixedVAT }] := by
  simp [itemTaxAmounts, h]

/-- Witness for C7 at a concrete item with fixed VAT 5, sub-items present
and a settings value carrying a different site rule. -/
theorem fixedVAT_overrides_witness :
    itemTaxAmounts
        (some { PricesIncludeTaxes := false,
                Taxes := [{ Percentage := 20, ProductTypes := [], Countries := [] }],
                MemberDiscounts := [] })
        "US" (.mk "sku" 1000 "book" 5 [.mk "sub" 400 "cd" 0 [] 1] 1)
      = [{ price := 1000, percentage := 5 }] :=
  fixedVAT_overrides_taxRules
    (some { PricesIncludeTaxes := false,
            Taxes := [{ Percentage := 20, ProductTypes := [], Countries := [] }],
            MemberDiscounts := [] })
    "US" (.mk "sku" 1000 "book" 5 [.mk "sub" 400 "cd" 0 [] 1] 1) (by decide)

/-- Folding with an `if`-gated step visits exactly the filtered list. -/
lemma foldl_if_filter {α : Type} (P : α → Bool) (f : ℕ → α → ℕ) :
    ∀ (l : List α) (init : ℕ),
      l.foldl (fun acc a => if P a then f acc a else acc) init
        = (l.filter P).foldl f init := by
  intro l
  induction l with
  | nil => intro init; rfl
  | cons a l ih => intro init; cases hP : P a <;> simp [List.filter_cons, hP, ih]

/-- C6: the member-discount contributions to an item's `Discount` are
exactly those of the discounts passing the eligibility gate — claims
present (`jwtClaims ≠ none`) and satisfying all required claims, and the
product-type allow-list accepting the item's type — stacked additively onto
the coupon contribution; with nil claims the `Discount` is the coupon
contribution alone. -/
theorem memberDiscount_stacking_characterization (s : Settings)
    (jwtClaims : Option JWTClaims) (country currency : String)
    (coupon : Option Coupon) (item : Item) :
    (calcItemPrice (some s) jwtClaims country currency coupon item).Discount
      = (s.MemberDiscounts.filter (memberEligible jwtClaims item)).foldl
          (fun dd d =>
            add64 dd
              (calculateDiscount
                (applyTaxes s.PricesIncludeTaxes item.PriceInLowestUnit
                  (itemTaxAmounts (some s) country item)).1
                (applyTaxes s.PricesIncludeTaxes item.PriceInLowestUnit
                  (itemTaxAmounts (some s) country item)).2
                d.Percentage (d.FixedDiscount currency) s.PricesIncludeTaxes))
          (couponDiscountOf coupon currency item
            (applyTaxes s.PricesIncludeTaxes item.PriceInLowestUnit
              (itemTaxAmounts (some s) country item)).1
            (applyTaxes s.PricesIncludeTaxes item.PriceInLowestUnit
              (itemTaxAmounts (some s) country item)).2
            s.PricesIncludeTaxes)
    ∧ (jwtClaims = none →
        (calcItemPrice (some s) jwtClaims country currency coupon item).Discount
          = couponDiscountOf coupon currency item
              (applyTaxes s.PricesIncludeTaxes item.PriceInLowestUnit
                (itemTaxAmounts (some s) country item)).1
              (applyTaxes s.PricesIncludeTaxes item.PriceInLowestUnit
                (itemTaxAmounts (some s) country item)).2
              s.PricesIncludeTaxes) := by
  constructor
  · simp only [calcItemPrice, includeTaxesOf]
    exact foldl_if_filter _ _ _ _
  · rintro rfl
    simp [calcItemPrice, includeTaxesOf, memberEligible]

/-- Witness for C6: with nil claims, a configured member discount
contributes nothing (no coupon either, so the discount is 0). -/
theorem memberDiscount_stacking_witness :
    (calcItemPrice
        (some { PricesIncludeTaxes := false, Taxes := [],
                MemberDiscounts :=
                  [{ Claims := [("plan", "gold")], Percentage := 10,
                     FixedAmount := [], ProductTypes := [], Products := [] }] })
        none "US" "USD" none (.mk "a" 500 "t" 0 [] 1)).Discount = 0 := by
  have h := memberDiscount_stacking_characterization
    { PricesIncludeTaxes := false, Taxes := [],
      MemberDiscounts :=
        [{ Claims := [("plan", "gold")], Percentage := 10,
           FixedAmount := [], ProductTypes := [], Products := [] }] }
    none "US" "USD" none (.mk "a" 500 "t" 0 [] 1)
  rw [h.2 rfl]
  decide

/-- C8: for an item with no fixed VAT override and no taxable sub-items,
tax resolution scans `settings.Taxes` in declared order and yields a single
taxable amount at the first rule whose `AppliesTo` accepts the country and
the item's product type (`List.find?` is first-match); when no rule
matches, no taxable amount is produced and the item's `Taxes` stay 0. -/
theorem taxRule_first_match (s : Settings) (jwtClaims : Option JWTClaims)
    (country currency : String) (coupon : Option Coupon) (item : Item)
    (hvat : item.FixedVAT = 0) (hsub : item.TaxableItems = []) :
    itemTaxAmounts (some s) country item
      = (match s.Taxes.find? (fun t => t.AppliesTo country item.ProductType) with
          | some t => [{ price := item.PriceInLowestUnit, percentage := t.Percentage }]
          | none => [])
    ∧ (s.Taxes.find? (fun t => t.AppliesTo country item.ProductType) = none →
        (calcItemPrice (some s) jwtClaims country currency coupon item).Taxes = 0) := by
  constructor
  · simp [itemTaxAmounts, hvat, hsub]
  · intro hnone
    simp [calcItemPrice, includeTaxesOf, itemTaxAmounts, hvat, hsub, hnone, applyTaxes]

/-- Witness for C8: a rule restricted to product type "cd" does not match a
"book" item, so no taxable amount is produced and the item's taxes are 0. -/
theorem taxRule_first_match_witness :
    itemTaxAmounts
        (some { PricesIncludeTaxes := false,
                Taxes := [{ Percentage := 20, ProductTypes := ["cd"], Countries := [] }],
                MemberDiscounts := [] })
        "US" (.mk "a" 500 "book" 0 [] 1) = []
    ∧ (calcItemPrice
        (some { PricesIncludeTaxes := false,
                Taxes := [{ Percentage := 20, ProductTypes := ["cd"], Countries := [] }],
                MemberDiscounts := [] })
        none "US" "USD" none (.mk "a" 500 "book" 0 [] 1)).Taxes = 0 := by
  have h := taxRule_first_match
    { PricesIncludeTaxes := false,
      Taxes := [{ Percentage := 20, ProductTypes := ["cd"], Countries := [] }],
      MemberDiscounts := [] }
    none "US" "USD" none (.mk "a" 500 "book" 0 [] 1) rfl rfl
  exact ⟨by rw [h.1]; decide, h.2 (by decide)⟩

/-- C9 counterexample: with a nil settings pointer, an item carrying a
nonzero fixed VAT override (20%) is still taxed (Taxes = 200 ≠ 0), so it is
not the case that every item's `Taxes` are 0 regardless of the item's other
fields. -/
theorem nilSettings_fixedVAT_taxed_counterexample :
    ¬ ∀ ip ∈ (CalculatePrice none none "US" "USD" none
        [.mk "sku" 1000 "book" 20 [] 1]).Items, ip.Taxes = 0 := by
  decide

/-- C9 (amended): a nil settings pointer disables the site tax rules and
all member discounts: every item without a fixed VAT override has
`Taxes = 0`, and every item's `Discount` is exactly the coupon contribution
(a nonzero per-item fixed VAT override, however, still produces taxes). -/
theorem nilSettings_no_site_taxes_no_member_discounts
    (jwtClaims : Option JWTClaims) (country currency : String)
    (coupon : Option Coupon) (item : Item) :
    (item.FixedVAT = 0 →
      (calcItemPrice none jwtClaims country currency coupon item).Taxes = 0)
    ∧ (calcItemPrice none jwtClaims country currency coupon item).Discount
        = couponDiscountOf coupon currency item
            (calcItemPrice none jwtClaims country currency coupon item).Subtotal
            (calcItemPrice none jwtClaims country currency coupon item).Taxes false := by
  constructor
  · intro h
    simp [calcItemPrice, includeTaxesOf, itemTaxAmounts, applyTaxes, h]
  · simp [calcItemPrice, includeTaxesOf]

/-- Witness for C9 at a concrete item without fixed VAT under nil
settings. -/
theorem nilSettings_witness :
    (calcItemPrice none none "US" "USD" none (.mk "a" 500 "t" 0 [] 2)).Taxes = 0 :=
  (nilSettings_no_site_taxes_no_member_discounts none "US" "USD" none
    (.mk "a" 500 "t" 0 [] 2)).1 rfl

/-- Two settings agreeing on everything except each member discount's
product-SKU allow-list (`Products`). -/
def sameExceptProducts (s1 s2 : Settings) : Prop :=
  s1.PricesIncludeTaxes = s2.PricesIncludeTaxes
  ∧ s1.Taxes = s2.Taxes
  ∧ List.Forall₂
      (fun d1 d2 : MemberDiscount =>
        d1.Claims = d2.Claims ∧ d1.Percentage = d2.Percentage
          ∧ d1.FixedAmount = d2.FixedAmount ∧ d1.ProductTypes = d2.ProductTypes)
      s1.MemberDiscounts s2.MemberDiscounts

/-- Folds over `Forall₂`-related lists with steps agreeing on related
elements produce the same result. -/
lemma foldl_congr_forall₂ {α : Type} {R : α → α → Prop} {f g : ℕ → α → ℕ}
    (hfg : ∀ a b, R a b → ∀ acc, f acc a = g acc b) :
    ∀ {l1 l2 : List α}, List.Forall₂ R l1 l2 →
      ∀ init, l1.foldl f init = l2.foldl g init := by
  intro l1 l2 h
  induction h with
  | nil => intro init; rfl
  | cons hab htl ih =>
    intro init
    simp only [List.foldl_cons]
    rw [hfg _ _ hab]
    exact ih _

/-- The per-item computation ignores each member discount's `Products`
allow-list. -/
lemma calcItemPrice_products_independent (s1 s2 : Settings)
    (h : sameExceptProducts s1 s2) (jwtClaims : Option JWTClaims)
    (country currency : String) (coupon : Option Coupon) (item : Item) :
    calcItemPrice (some s1) jwtClaims country currency coupon item
      = calcItemPrice (some s2) jwtClaims country currency coupon item := by
  obtain ⟨hinc, htax, hmd⟩ := h
  have e2 : itemTaxAmounts (some s1) country item
      = itemTaxAmounts (some s2) country item := by
    simp only [itemTaxAmounts, htax]
  simp only [calcItemPrice, includeTaxesOf]
  rw [hinc, e2]
  have efold :
      s1.MemberDiscounts.foldl
        (fun dd d =>
          if memberEligible jwtClaims item d then
            add64 dd
              (calculateDiscount
                (applyTaxes s2.PricesIncludeTaxes item.PriceInLowestUnit
                  (itemTaxAmounts (some s2) country item)).1
                (applyTaxes s2.PricesIncludeTaxes item.PriceInLowestUnit
                  (itemTaxAmounts (some s2) country item)).2
                d.Percentage (d.FixedDiscount currency) s2.PricesIncludeTaxes)
          else dd)
        (couponDiscountOf coupon currency item
          (applyTaxes s2.PricesIncludeTaxes item.PriceInLowestUnit
            (itemTaxAmounts (some s2) country item)).1
          (applyTaxes s2.PricesIncludeTaxes item.PriceInLowestUnit
            (itemTaxAmounts (some s2) country item)).2
          s2.PricesIncludeTaxes)
      = s2.MemberDiscounts.foldl
        (fun dd d =>
          if memberEligible jwtClaims item d then
            add64 dd
              (calculateDiscount
                (applyTaxes s2.PricesIncludeTaxes item.PriceInLowestUnit
                  (itemTaxAmounts (some s2) country item)).1
                (applyTaxes s2.PricesIncludeTaxes item.PriceInLowestUnit
                  (itemTaxAmounts (some s2) country item)).2
                d.Percentage (d.FixedDiscount currency) s2.PricesIncludeTaxes)
          else dd)
        (couponDiscountOf coupon currency item
          (applyTaxes s2.PricesIncludeTaxes item.PriceInLowestUnit
            (itemTaxAmounts (some s2) country item)).1
          (applyTaxes s2.PricesIncludeTaxes item.PriceInLowestUnit
            (itemTaxAmounts (some s2) country item)).2
          s2.PricesIncludeTaxes) := by
    refine foldl_congr_forall₂ ?_ hmd _
    intro d1 d2 hR acc
    obtain ⟨hc, hp, hf, ht⟩ := hR
    simp [memberEligible, MemberDiscount.ValidForType, MemberDiscount.FixedDiscount,
      HasClaims, hc, hp, hf, ht]
  rw [efold]

/-- C10: the output of `CalculatePrice` is independent of every member
discount's product-SKU allow-list: two calls whose inputs agree except for
the `Products` lists of the member discounts return equal `Price`s
(`MemberDiscount.ValidForProduct` is never consulted). -/
theorem price_independent_of_discount_products (s1 s2 : Settings)
    (h : sameExceptProducts s1 s2) (jwtClaims : Option JWTClaims)
    (country currency : String) (coupon : Option Coupon) (items : List Item) :
    CalculatePrice (some s1) jwtClaims country currency coupon items
      = CalculatePrice (some s2) jwtClaims country currency coupon items := by
  have hfi : foldItem (some s1) jwtClaims country currency coupon
      = foldItem (some s2) jwtClaims country currency coupon := by
    funext p item
    unfold foldItem
    rw [calcItemPrice_products_independent s1 s2 ⟨h.1, h.2.1, h.2.2⟩]
  unfold CalculatePrice
  rw [hfi]

/-- Witness for C10: a 10% member discount whose `Products` allow-list
excludes the purchased SKU in one settings value and is empty in the other
produces the same price either way. -/
theorem price_independent_of_discount_products_witness :
    CalculatePrice
        (some { PricesIncludeTaxes := false, Taxes := [],
                MemberDiscounts :=
                  [{ Claims := [], Percentage := 10, FixedAmount := [],
                     ProductTypes := [], Products := ["only-this-sku"] }] })
        (some []) "US" "USD" none [.mk "other" 1000 "book" 0 [] 1]
      = CalculatePrice
        (some { PricesIncludeTaxes := false, Taxes := [],
                MemberDiscounts :=
                  [{ Claims := [], Percentage := 10, FixedAmount := [],
                     ProductTypes := [], Products := [] }] })
        (some []) "US" "USD" none [.mk "other" 1000 "book" 0 [] 1] :=
  price_independent_of_discount_products _ _
    ⟨rfl, rfl, List.Forall₂.cons ⟨rfl, rfl, rfl, rfl⟩ List.Forall₂.nil⟩
    (some []) "US" "USD" none [.mk "other" 1000 "book" 0 [] 1]


/-- C3 counterexample: `rint` returns a Go `uint64`, so at input `-2.5` it
does not return `-2`: in the model it returns `2^64 - 2`. -/
theorem rint_negative_input_counterexample :
    rint (Rat.divInt (-5) 2) = 18446744073709551614
    ∧ (rint (Rat.divInt (-5) 2) : ℤ) ≠ -2 := by
  constructor
  · decide
  · decide

/-- C3 (amended): on every non-negative input in uint64 range, `rint`
agrees with the specification's round-half-to-even. -/
theorem rint_eq_roundHalfToEven_of_nonneg (x : ℚ) (h0 : 0 ≤ x)
    (h1 : x ≤ 18446744073709551615) :
    (rint x : ℤ) = roundHalfToEven x := by
  have hdpos : 0 < ((x.den : ℤ)) := Int.natCast_pos.mpr x.den_pos
  have hn : 0 ≤ x.num := Rat.num_nonneg.mpr h0
  have hb : x.num ≤ 18446744073709551615 * (x.den : ℤ) := by
    have h2 := Rat.le_def.mp h1
    simpa using h2
  rcases lt_or_eq_of_le h0 with hpos | hzero
  · simp only [rint, roundHalfToEven]
    rw [if_pos hpos]
    rw [Int.tdiv_eq_ediv hn (le_of_lt hdpos), Int.fdiv_eq_ediv _ (le_of_lt hdpos)]
    rw [show x.num - x.num / ((x.den : ℤ)) * ((x.den : ℤ)) = x.num % ((x.den : ℤ)) by
      rw [Int.emod_def]; ring]
    have hr0 : 0 ≤ x.num % ((x.den : ℤ)) := Int.emod_nonneg _ (ne_of_gt hdpos)
    have hrd : x.num % ((x.den : ℤ)) < ((x.den : ℤ)) := Int.emod_lt_of_pos _ hdpos
    have hq0 : 0 ≤ x.num / ((x.den : ℤ)) := Int.ediv_nonneg hn (le_of_lt hdpos)
    have hsharp : x.num / ((x.den : ℤ)) ≤ 18446744073709551614
        ∨ (x.num / ((x.den : ℤ)) = 18446744073709551615
            ∧ x.num % ((x.den : ℤ)) = 0) := by
      have hqK : x.num / ((x.den : ℤ)) ≤ 18446744073709551615 := by
        by_contra hcon
        push_neg at hcon
        have h2 : (18446744073709551616 : ℤ) ≤ x.num / ((x.den : ℤ)) := by omega
        have h3 := (Int.le_ediv_iff_mul_le hdpos).mp h2
        omega
      rcases eq_or_lt_of_le hqK with heq | hlt
      · right
        refine ⟨heq, ?_⟩
        have hdm := Int.ediv_add_emod x.num ((x.den : ℤ))
        rw [heq] at hdm
        omega
      · left; omega
    simp only [toU64, u64Mod]
    split_ifs <;> omega
  · rw [← hzero]
    decide


/-- Witness for C3 (amended): rint(2.5) = 2 and rint(3.5) = 4, via the
round-half-to-even agreement theorem at concrete inputs. -/
theorem rint_eq_roundHalfToEven_witness :
    rint (Rat.divInt 5 2) = 2 ∧ rint (Rat.divInt 7 2) = 4 := by
  constructor
  · have h := rint_eq_roundHalfToEven_of_nonneg (Rat.divInt 5 2)
      (by decide) (by decide)
    have h2 : roundHalfToEven (Rat.divInt 5 2) = 2 := by decide
    omega
  · have h := rint_eq_roundHalfToEven_of_nonneg (Rat.divInt 7 2)
      (by decide) (by decide)
    have h2 : roundHalfToEven (Rat.divInt 7 2) = 4 := by decide
    omega

end Calculator
